import Mathlib

/-!
Verification of the obstacle / geofence document controller
(src/src/MissionManager/ObstacleController.cc).

The controller itself is translated from the source.  Collaborators of the
controller that belong to the repository but are not among the provided
sources (JsonHelper, QGCFencePolygon, QGCFenceCircle, QmlObjectListModel,
ObstacleManager, the header constants) are modelled from the design spec;
each such definition carries a doc comment starting with
"Modelled from the spec:".
-/

set_option autoImplicit false

namespace Obstacle

/-- JSON values as stored in a Qt JSON document.  Numbers are modelled as
integers: every value this controller reads or writes is integral. -/
inductive JsonValue where
  | null
  | bool (b : Bool)
  | num (n : Int)
  | str (s : String)
  | arr (elems : List JsonValue)
  | obj (fields : List (String × JsonValue))

/-- A JSON object: association list from keys to values, first match wins. -/
abbrev JsonObject := List (String × JsonValue)

/-- Key lookup in a JSON object (QJsonObject operator[]). -/
def jget (o : JsonObject) (k : String) : Option JsonValue :=
  match o.find? (fun kv => kv.1 == k) with
  | some kv => some kv.2
  | none => none

/-- Key membership in a JSON object (QJsonObject contains). -/
def jcontains (o : JsonObject) (k : String) : Bool :=
  (jget o k).isSome

/-- Insert a key into a JSON object (QJsonObject insert, which replaces any
existing entry for the key); since lookup takes the first match, prepending
implements the replacement observably. -/
def jinsert (o : JsonObject) (k : String) (v : JsonValue) : JsonObject :=
  (k, v) :: o

/-- QJsonValue toInt with default 0: non-numeric values yield the default. -/
def JsonValue.toInt : JsonValue → Int
  | .num n => n
  | _ => 0

/-- QJsonValue toArray with default empty array. -/
def JsonValue.toArray : JsonValue → List JsonValue
  | .arr xs => xs
  | _ => []

/-- The QJsonValue types the key validation distinguishes here. -/
inductive JType where
  | double
  | array
deriving DecidableEq

/-- Type test used by key validation (QJsonValue type). -/
def JsonValue.hasType : JsonValue → JType → Bool
  | .num _, .double => true
  | .arr _, .array => true
  | _, _ => false

/-- Modelled from the spec: a geographic coordinate (QGeoCoordinate) whose
invalid/absent state is a first-class value; latitude, longitude and
altitude are optional components and the coordinate is valid when both
latitude and longitude are set. -/
structure GeoCoordinate where
  lat : Option Int
  lon : Option Int
  alt : Option Int
deriving DecidableEq

/-- The default-constructed, invalid coordinate (QGeoCoordinate()). -/
def GeoCoordinate.invalid : GeoCoordinate := ⟨none, none, none⟩

def GeoCoordinate.isValid (c : GeoCoordinate) : Bool :=
  c.lat.isSome && c.lon.isSome

def GeoCoordinate.altitude (c : GeoCoordinate) : Int :=
  c.alt.getD 0

def GeoCoordinate.setAltitude (c : GeoCoordinate) (a : Int) : GeoCoordinate :=
  { c with alt := some a }

/-- Modelled from the spec: JsonHelper loadGeoCoordinate with altitude
required — the breach return point is stored as the array [lon, lat, alt];
anything else is a parse failure. -/
def loadGeoCoordinate : JsonValue → Option GeoCoordinate
  | .arr [.num lon, .num lat, .num alt] => some ⟨some lat, some lon, some alt⟩
  | _ => none

/-- Modelled from the spec: JsonHelper saveGeoCoordinate with the altitude
written, producing the array [lon, lat, alt]. -/
def saveGeoCoordinate (c : GeoCoordinate) : JsonValue :=
  .arr [.num (c.lon.getD 0), .num (c.lat.getD 0), .num (c.alt.getD 0)]

/-- Modelled from the spec: a fence polygon (QGCFencePolygon) — an ordered
sequence of (latitude, longitude) vertices, an inclusion flag, the
interactive UI flag and a per-shape dirty flag. -/
structure QGCFencePolygon where
  vertices : List (Int × Int)
  inclusion : Bool
  interactive : Bool
  dirty : Bool
deriving DecidableEq

/-- Modelled from the spec: a fence circle (QGCFenceCircle) — center
coordinate, radius, inclusion flag, interactive flag, per-shape dirty
flag. -/
structure QGCFenceCircle where
  center : Int × Int
  radius : Int
  inclusion : Bool
  interactive : Bool
  dirty : Bool
deriving DecidableEq

/-- A (latitude, longitude) vertex serialized as the array [lon, lat]. -/
def vertexToJson (v : Int × Int) : JsonValue :=
  .arr [.num v.2, .num v.1]

def vertexFromJson : JsonValue → Option (Int × Int)
  | .arr [.num lon, .num lat] => some (lat, lon)
  | _ => none

def verticesFromJson : List JsonValue → Option (List (Int × Int))
  | [] => some []
  | v :: rest =>
    match vertexFromJson v with
    | some p => (verticesFromJson rest).map (fun ps => p :: ps)
    | none => none

/-- Modelled from the spec: the polygon sub-schema is delegated to the
shape serializer — an object with required fields. -/
def QGCFencePolygon.saveToJson (p : QGCFencePolygon) : JsonObject :=
  [("inclusion", .bool p.inclusion),
   ("polygon", .arr (p.vertices.map vertexToJson))]

/-- Modelled from the spec: the polygon loader — reads the required fields,
failing on a malformed object; a freshly loaded shape is neither
interactive nor dirty. -/
def QGCFencePolygon.loadFromJson (o : JsonObject) : Option QGCFencePolygon :=
  match jget o "inclusion", jget o "polygon" with
  | some (.bool inc), some (.arr vs) =>
    (verticesFromJson vs).map (fun ver => ⟨ver, inc, false, false⟩)
  | _, _ => none

/-- Modelled from the spec: the circle sub-schema serializer. -/
def QGCFenceCircle.saveToJson (c : QGCFenceCircle) : JsonObject :=
  [("inclusion", .bool c.inclusion),
   ("radius", .num c.radius),
   ("center", vertexToJson c.center)]

/-- Modelled from the spec: the circle loader — reads the required fields,
failing on a malformed object. -/
def QGCFenceCircle.loadFromJson (o : JsonObject) : Option QGCFenceCircle :=
  match jget o "inclusion", jget o "radius", jget o "center" with
  | some (.bool inc), some (.num r), some cj =>
    (vertexFromJson cj).map (fun ctr => ⟨ctr, r, inc, false, false⟩)
  | _, _, _ => none

/-- The value identity of a polygon as loaded back from its serialized
form: same vertices and inclusion flag, not interactive, not dirty. -/
def QGCFencePolygon.valueCopy (p : QGCFencePolygon) : QGCFencePolygon :=
  ⟨p.vertices, p.inclusion, false, false⟩

/-- The value identity of a circle as loaded back from its serialized
form. -/
def QGCFenceCircle.valueCopy (c : QGCFenceCircle) : QGCFenceCircle :=
  ⟨c.center, c.radius, c.inclusion, false, false⟩

/-- The document state of ObstacleController: shape lists, breach return
point, the breach altitude fact and its configured default, the aggregate
dirty flag, the itemsRequested flag and the fly-view flag. -/
structure ObstacleController where
  polygons : List QGCFencePolygon
  circles : List QGCFenceCircle
  breachReturnPoint : GeoCoordinate
  breachReturnAltitudeFact : Int
  breachReturnDefaultAltitude : Int
  dirty : Bool
  itemsRequested : Bool
  flyView : Bool
deriving DecidableEq

/-- ObstacleController setDirty (lines 284-300): only acts when the flag
changes; clearing additionally clears the dirty flag of every contained
polygon and circle, setting does not touch per-shape state. -/
def ObstacleController.setDirty (c : ObstacleController) (d : Bool) : ObstacleController :=
  if d = c.dirty then c
  else if d then { c with dirty := d }
  else
    { c with dirty := d,
             polygons := c.polygons.map (fun p => { p with dirty := false }),
             circles := c.circles.map (fun ci => { ci with dirty := false }) }

/-- Modelled from the spec: Fact setRawValue on the breach-return altitude
fact; the raw-value-changed signal fires only when the value changes and is
connected to the dirty handler of the controller (line 61). -/
def ObstacleController.setAltitudeFactRawValue (c : ObstacleController) (a : Int) : ObstacleController :=
  if a = c.breachReturnAltitudeFact then c
  else ({ c with breachReturnAltitudeFact := a }).setDirty true

/-- ObstacleController setBreachReturnPoint (lines 87-94): on change,
stores the point and sets dirty; the emitted change signal reaches the
dirty handler again (line 60), which is an idempotent second set. -/
def ObstacleController.setBreachReturnPoint (c : ObstacleController) (p : GeoCoordinate) : ObstacleController :=
  if p = c.breachReturnPoint then c
  else ({ c with breachReturnPoint := p }).setDirty true

/-- Modelled from the spec: QmlObjectListModel clearAndDeleteContents on
the polygon list — destroys all contained shapes; a membership change
raises the aggregate dirty notification, which the controller connection
(line 62) turns into setDirty true. -/
def ObstacleController.clearPolygons (c : ObstacleController) : ObstacleController :=
  if c.polygons.isEmpty then c
  else ({ c with polygons := [] }).setDirty true

/-- Modelled from the spec: QmlObjectListModel clearAndDeleteContents on
the circle list. -/
def ObstacleController.clearCircles (c : ObstacleController) : ObstacleController :=
  if c.circles.isEmpty then c
  else ({ c with circles := [] }).setDirty true

/-- ObstacleController removeAll (lines 230-235): clear the breach point,
then destroy all polygons and circles. -/
def ObstacleController.removeAll (c : ObstacleController) : ObstacleController :=
  ((c.setBreachReturnPoint GeoCoordinate.invalid).clearPolygons).clearCircles

/-- Modelled from the spec: ShapeSet append for polygons — a membership
change raises the aggregate dirty notification, turned into setDirty
true by the controller connections. -/
def ObstacleController.appendPolygon (c : ObstacleController) (p : QGCFencePolygon) : ObstacleController :=
  ({ c with polygons := c.polygons ++ [p] }).setDirty true

/-- Modelled from the spec: ShapeSet append for circles. -/
def ObstacleController.appendCircle (c : ObstacleController) (ci : QGCFenceCircle) : ObstacleController :=
  ({ c with circles := c.circles ++ [ci] }).setDirty true

/-- ObstacleController isEmpty (lines 525-528). -/
def ObstacleController.isEmpty (c : ObstacleController) : Bool :=
  c.polygons.isEmpty && c.circles.isEmpty && !c.breachReturnPoint.isValid

/-- ObstacleController containsItems (lines 373-376). -/
def ObstacleController.containsItems (c : ObstacleController) : Bool :=
  decide (0 < c.polygons.length) || decide (0 < c.circles.length)

/-- Modelled from the spec: an external mutation of the vertex list of the
polygon at the given index — the shape sets its own dirty flag, and when
that flag actually changes the dirty-changed signal propagates to the
controller (line 62), which sets the aggregate dirty flag. -/
def ObstacleController.setPolygonVertices (c : ObstacleController) (i : Nat) (vs : List (Int × Int)) : ObstacleController :=
  match c.polygons.get? i with
  | none => c
  | some p =>
    let c1 := { c with polygons := c.polygons.set i { p with vertices := vs, dirty := true } }
    if p.dirty then c1 else c1.setDirty true

/-- The errors load can report through its error string. -/
inductive LoadError where
  | keyValidation (key : String)
  | unsupportedVersion
  | polygonNotObject
  | polygonParse
  | circleNotObject
  | circleParse
  | breachReturnParse
deriving DecidableEq

/-- One entry of the JsonHelper key validation table. -/
structure KeyValidateInfo where
  key : String
  vtype : JType
  required : Bool

/-- Modelled from the spec: JsonHelper validateKeys — every required key
must be present and every present key must have the declared type; the
first violation aborts with a parse error naming the key. -/
def validateKeys (o : JsonObject) : List KeyValidateInfo → Option LoadError
  | [] => none
  | ki :: rest =>
    if ki.required && !(jcontains o ki.key) then some (.keyValidation ki.key)
    else
      match jget o ki.key with
      | some v => if v.hasType ki.vtype then validateKeys o rest else some (.keyValidation ki.key)
      | none => validateKeys o rest

/-- Modelled from the spec: the version key of JsonHelper. -/
def jsonVersionKey : String := "version"

def jsonPolygonsKey : String := "polygons"

def jsonCirclesKey : String := "circles"

def jsonBreachReturnKey : String := "breachReturn"

/-- Modelled from the spec: the current supported document version; the
controller header is not among the sources and the spec fixes it to 2. -/
def jsonCurrentVersion : Int := 2

/-- The key validation table of load (lines 140-145). -/
def keyInfoList : List KeyValidateInfo :=
  [⟨jsonVersionKey, .double, true⟩,
   ⟨jsonCirclesKey, .array, true⟩,
   ⟨jsonPolygonsKey, .array, true⟩,
   ⟨jsonBreachReturnKey, .array, false⟩]

/-- The polygon-array loop of load (lines 155-167): each entry must be an
object and must parse; parsed polygons are appended as the loop goes, so a
later failure keeps the earlier appends. -/
def ObstacleController.loadPolygons (c : ObstacleController) :
    List JsonValue → ObstacleController × Option LoadError
  | [] => (c, none)
  | v :: rest =>
    match v with
    | .obj o =>
      match QGCFencePolygon.loadFromJson o with
      | some p => (c.appendPolygon p).loadPolygons rest
      | none => (c, some .polygonParse)
    | _ => (c, some .polygonNotObject)

/-- The circle-array loop of load (lines 169-181). -/
def ObstacleController.loadCircles (c : ObstacleController) :
    List JsonValue → ObstacleController × Option LoadError
  | [] => (c, none)
  | v :: rest =>
    match v with
    | .obj o =>
      match QGCFenceCircle.loadFromJson o with
      | some ci => (c.appendCircle ci).loadCircles rest
      | none => (c, some .circleParse)
    | _ => (c, some .circleNotObject)

/-- The body of load after the initial removeAll (lines 132-196): legacy
versions are a silent no-op success; then key validation, version check,
the two shape loops, and the optional breach return point.  On the success
path the unconditional breach-point-changed emission reaches the dirty
handler (setDirty true) before the final setDirty false. -/
def ObstacleController.loadBody (c : ObstacleController) (json : JsonObject) :
    ObstacleController × Option LoadError :=
  if !(jcontains json jsonVersionKey) || ((jget json jsonVersionKey).getD .null).toInt = 1 then
    (c, none)
  else
    match validateKeys json keyInfoList with
    | some e => (c, some e)
    | none =>
      if ((jget json jsonVersionKey).getD .null).toInt ≠ jsonCurrentVersion then
        (c, some .unsupportedVersion)
      else
        match c.loadPolygons ((jget json jsonPolygonsKey).getD .null).toArray with
        | (c1, some e) => (c1, some e)
        | (c1, none) =>
          match c1.loadCircles ((jget json jsonCirclesKey).getD .null).toArray with
          | (c2, some e) => (c2, some e)
          | (c2, none) =>
            if jcontains json jsonBreachReturnKey then
              match loadGeoCoordinate ((jget json jsonBreachReturnKey).getD .null) with
              | none => (c2, some .breachReturnParse)
              | some pt =>
                let c3 := { c2 with breachReturnPoint := pt }
                let c4 := c3.setAltitudeFactRawValue pt.altitude
                (((c4.setDirty true).setDirty false), none)
            else
              let c3 := { c2 with breachReturnPoint := GeoCoordinate.invalid }
              let c4 := c3.setAltitudeFactRawValue c3.breachReturnDefaultAltitude
              (((c4.setDirty true).setDirty false), none)

/-- ObstacleController load (lines 128-197): always clears the document
first, then runs the body. -/
def ObstacleController.load (c : ObstacleController) (json : JsonObject) :
    ObstacleController × Option LoadError :=
  c.removeAll.loadBody json

/-- ObstacleController save (lines 199-228): writes the current version and
the two shape arrays into the given object; when the breach return point is
valid, its altitude is first overwritten with the current altitude fact
value and the point is then serialized; otherwise the breach key is
omitted.  Returns the mutated document together with the output object. -/
def ObstacleController.save (c : ObstacleController) (json : JsonObject) :
    ObstacleController × JsonObject :=
  let json1 := jinsert json jsonVersionKey (.num jsonCurrentVersion)
  let json2 := jinsert json1 jsonPolygonsKey
      (.arr (c.polygons.map (fun p => .obj p.saveToJson)))
  let json3 := jinsert json2 jsonCirclesKey
      (.arr (c.circles.map (fun ci => .obj ci.saveToJson)))
  if c.breachReturnPoint.isValid then
    let pt := c.breachReturnPoint.setAltitude c.breachReturnAltitudeFact
    ({ c with breachReturnPoint := pt }, jinsert json3 jsonBreachReturnKey (saveGeoCoordinate pt))
  else
    (c, json3)

/-- A freshly constructed controller (lines 43-64): empty document, invalid
breach point, altitude fact initialized to the configured default, clean
and with no outstanding item request. -/
def ObstacleController.start (flyView : Bool) (defaultAlt : Int) : ObstacleController :=
  { polygons := [], circles := [], breachReturnPoint := GeoCoordinate.invalid,
    breachReturnAltitudeFact := defaultAlt, breachReturnDefaultAltitude := defaultAlt,
    dirty := false, itemsRequested := false, flyView := flyView }

/-- Modelled from the spec: the remote-peer transport (ObstacleManager) —
its progress flag, its last-known shapes and breach point, and counters
recording how many load / send / remove-all requests were issued to it. -/
structure ObstacleManager where
  inProgress : Bool
  polygons : List QGCFencePolygon
  circles : List QGCFenceCircle
  breachReturnPoint : GeoCoordinate
  loadRequestCount : Nat
  sendRequestCount : Nat
  removeAllRequestCount : Nat
deriving DecidableEq

/-- The synchronization state: the controller document, the transport, the
offline flag of the master controller and the initial-plan-request flag of
the manager vehicle. -/
structure SyncState where
  controller : ObstacleController
  manager : ObstacleManager
  offline : Bool
  initialPlanRequestComplete : Bool
deriving DecidableEq

/-- ObstacleController syncInProgress (lines 273-276): delegated to the
transport progress flag. -/
def SyncState.syncInProgress (s : SyncState) : Bool :=
  s.manager.inProgress

/-- ObstacleController removeAllFromVehicle (lines 237-246). -/
def SyncState.removeAllFromVehicle (s : SyncState) : SyncState :=
  if s.offline then s
  else if s.syncInProgress then s
  else { s with manager := { s.manager with removeAllRequestCount := s.manager.removeAllRequestCount + 1 } }

/-- ObstacleController loadFromVehicle (lines 248-258). -/
def SyncState.loadFromVehicle (s : SyncState) : SyncState :=
  if s.offline then s
  else if s.syncInProgress then s
  else
    { s with
      controller := { s.controller with itemsRequested := true },
      manager := { s.manager with loadRequestCount := s.manager.loadRequestCount + 1 } }

/-- ObstacleController sendToVehicle (lines 260-271): guarded like the
other operations; on acceptance hands the shapes to the transport and
optimistically clears the document dirty flag. -/
def SyncState.sendToVehicle (s : SyncState) : SyncState :=
  if s.offline then s
  else if s.syncInProgress then s
  else
    { s with
      manager := { s.manager with sendRequestCount := s.manager.sendRequestCount + 1 },
      controller := s.controller.setDirty false }

/-- ObstacleController setReturnPointFromManager (lines 331-340): stores
the transport breach point, the emitted change signal reaches the dirty
handler (line 60), and the altitude fact is synchronized from the point or
reset to the default. -/
def SyncState.setReturnPointFromManager (s : SyncState) : SyncState :=
  let pt := s.manager.breachReturnPoint
  let c1 := ({ s.controller with breachReturnPoint := pt }).setDirty true
  let c2 :=
    if pt.isValid then c1.setAltitudeFactRawValue pt.altitude
    else c1.setAltitudeFactRawValue c1.breachReturnDefaultAltitude
  { s with controller := c2 }

/-- ObstacleController setFenceFromManager (lines 314-329): destroys the
local shapes, deep-copies the transport shapes in, and clears dirty. -/
def SyncState.setFenceFromManager (s : SyncState) : SyncState :=
  let c1 := s.controller.clearPolygons
  let c2 := c1.clearCircles
  let c3 := s.manager.polygons.foldl (fun acc p => acc.appendPolygon p) c2
  let c4 := s.manager.circles.foldl (fun acc ci => acc.appendCircle ci) c3
  { s with controller := c4.setDirty false }

/-- ObstacleController managerLoadComplete (lines 342-355): reconciles when
in fly view, or when items were requested, or when the document is empty;
itemsRequested is reset afterwards in every case.  The returned flag
records whether reconciliation occurred (the load-complete signal). -/
def SyncState.managerLoadComplete (s : SyncState) : SyncState × Bool :=
  if s.controller.flyView || s.controller.itemsRequested || s.controller.isEmpty then
    let s1 := s.setReturnPointFromManager
    let s2 := s1.setFenceFromManager
    let s3 := { s2 with controller := s2.controller.setDirty false }
    ({ s3 with controller := { s3.controller with itemsRequested := false } }, true)
  else
    ({ s with controller := { s.controller with itemsRequested := false } }, false)

/-- ObstacleController showPlanFromManagerVehicle (lines 383-407): offline
is a pure no-op returning handled; otherwise itemsRequested is set and the
call returns handled when a future load-complete will fire naturally, or
synthesizes an immediate load-complete and returns not handled. -/
def SyncState.showPlanFromManagerVehicle (s : SyncState) : SyncState × Bool :=
  if s.offline then (s, true)
  else
    let s1 := { s with controller := { s.controller with itemsRequested := true } }
    if !s1.initialPlanRequestComplete then (s1, true)
    else if s1.syncInProgress then (s1, true)
    else
      let s2 := { s1 with controller := { s1.controller with itemsRequested := true } }
      ((s2.managerLoadComplete).1, false)

/-- Modelled from the spec: the MAVLink mission-fence capability bit. -/
def capabilityMissionFence : Nat := 16384

/-- The capability state of the manager vehicle: its advertised capability
bits and the negotiated maximum protocol version, encoded as major times
one hundred (100 for v1, 200 for v2). -/
structure VehicleCaps where
  capabilityBits : Nat
  maxProtoVersion : Nat
deriving DecidableEq

/-- ObstacleController supported (lines 493-496): the capability bit must
be advertised and the protocol version must be at least 200. -/
def supported (v : VehicleCaps) : Bool :=
  decide (v.capabilityBits &&& capabilityMissionFence ≠ 0)
    && decide (200 ≤ v.maxProtoVersion)

/-- The negotiated protocol major version encoded in maxProtoVersion. -/
def VehicleCaps.protocolMajorVersion (v : VehicleCaps) : Nat :=
  v.maxProtoVersion / 100

/-- The persisted value of a polygon: vertices and inclusion flag. -/
def QGCFencePolygon.value (p : QGCFencePolygon) : List (Int × Int) × Bool :=
  (p.vertices, p.inclusion)

/-- The persisted value of a circle: center, radius and inclusion flag. -/
def QGCFenceCircle.value (c : QGCFenceCircle) : (Int × Int) × Int × Bool :=
  (c.center, c.radius, c.inclusion)

/-- All contained shapes have a clear dirty flag. -/
def ObstacleController.allShapesClean (c : ObstacleController) : Bool :=
  c.polygons.all (fun p => !p.dirty) && c.circles.all (fun ci => !ci.dirty)

/-! Basic lemmas about the JSON object operations. -/

theorem jget_jinsert_self (o : JsonObject) (k : String) (v : JsonValue) :
    jget (jinsert o k v) k = some v := by
  simp [jget, jinsert, List.find?]

theorem jget_jinsert_other (o : JsonObject) (k k2 : String) (v : JsonValue)
    (h : (k2 == k) = false) : jget (jinsert o k v) k2 = jget o k2 := by
  have hk : (k == k2) = false := by
    cases h2 : (k == k2)
    · rfl
    · rw [eq_of_beq h2] at h
      simp at h
  simp [jget, jinsert, List.find?, hk]

/-! Lemmas about setDirty and the small mutators. -/

theorem ObstacleController.setDirty_true (c : ObstacleController) :
    c.setDirty true = { c with dirty := true } := by
  obtain ⟨ps, cs, br, fa, da, d, ir, fv⟩ := c
  cases d <;> simp [ObstacleController.setDirty]

theorem ObstacleController.setDirty_false_of_dirty (c : ObstacleController)
    (h : c.dirty = true) :
    c.setDirty false =
      { c with dirty := false,
               polygons := c.polygons.map (fun p => { p with dirty := false }),
               circles := c.circles.map (fun ci => { ci with dirty := false }) } := by
  obtain ⟨ps, cs, br, fa, da, d, ir, fv⟩ := c
  simp only at h
  subst h
  simp [ObstacleController.setDirty]

theorem ObstacleController.setDirty_false_of_clean (c : ObstacleController)
    (h : c.dirty = false) : c.setDirty false = c := by
  obtain ⟨ps, cs, br, fa, da, d, ir, fv⟩ := c
  simp only at h
  subst h
  simp [ObstacleController.setDirty]

theorem ObstacleController.setDirty_dirty (c : ObstacleController) (d : Bool) :
    (c.setDirty d).dirty = d := by
  unfold ObstacleController.setDirty
  split
  · next h => exact h.symm
  · split <;> rfl

theorem ObstacleController.appendPolygon_eq (c : ObstacleController) (p : QGCFencePolygon) :
    c.appendPolygon p = { c with polygons := c.polygons ++ [p], dirty := true } := by
  unfold ObstacleController.appendPolygon
  rw [ObstacleController.setDirty_true]

theorem ObstacleController.appendCircle_eq (c : ObstacleController) (ci : QGCFenceCircle) :
    c.appendCircle ci = { c with circles := c.circles ++ [ci], dirty := true } := by
  unfold ObstacleController.appendCircle
  rw [ObstacleController.setDirty_true]

theorem ObstacleController.clearPolygons_eq (c : ObstacleController) :
    c.clearPolygons = { c with polygons := [], dirty := c.dirty || !c.polygons.isEmpty } := by
  obtain ⟨ps, cs, br, fa, da, d, ir, fv⟩ := c
  cases ps <;> simp [ObstacleController.clearPolygons, ObstacleController.setDirty_true]

theorem ObstacleController.clearCircles_eq (c : ObstacleController) :
    c.clearCircles = { c with circles := [], dirty := c.dirty || !c.circles.isEmpty } := by
  obtain ⟨ps, cs, br, fa, da, d, ir, fv⟩ := c
  cases cs <;> simp [ObstacleController.clearCircles, ObstacleController.setDirty_true]

theorem ObstacleController.setBreachReturnPoint_eq (c : ObstacleController) (p : GeoCoordinate) :
    c.setBreachReturnPoint p =
      if p = c.breachReturnPoint then c
      else { c with breachReturnPoint := p, dirty := true } := by
  unfold ObstacleController.setBreachReturnPoint
  by_cases h : p = c.breachReturnPoint
  · simp [h]
  · simp [h, ObstacleController.setDirty_true]

theorem ObstacleController.removeAll_eq (c : ObstacleController) :
    c.removeAll =
      { c with polygons := [], circles := [], breachReturnPoint := GeoCoordinate.invalid,
               dirty := ((if GeoCoordinate.invalid = c.breachReturnPoint then c.dirty else true)
                          || !c.polygons.isEmpty) || !c.circles.isEmpty } := by
  obtain ⟨ps, cs, br, fa, da, d, ir, fv⟩ := c
  unfold ObstacleController.removeAll
  rw [ObstacleController.setBreachReturnPoint_eq]
  by_cases h : GeoCoordinate.invalid = br
  · subst h
    simp [ObstacleController.clearPolygons_eq, ObstacleController.clearCircles_eq]
  · simp [h, ObstacleController.clearPolygons_eq, ObstacleController.clearCircles_eq]

theorem ObstacleController.removeAll_idem (c : ObstacleController) :
    c.removeAll.removeAll = c.removeAll := by
  rw [ObstacleController.removeAll_eq, ObstacleController.removeAll_eq]
  simp

theorem ObstacleController.setAltitudeFactRawValue_of_dirty (c : ObstacleController)
    (h : c.dirty = true) (a : Int) :
    c.setAltitudeFactRawValue a = { c with breachReturnAltitudeFact := a } := by
  obtain ⟨ps, cs, br, fa, da, d, ir, fv⟩ := c
  simp only at h
  subst h
  unfold ObstacleController.setAltitudeFactRawValue
  split
  · next heq => simp [heq]
  · rw [ObstacleController.setDirty_true]

/-! Round-trip lemmas for the shape serializers. -/

theorem vertexFromJson_toJson (v : Int × Int) :
    vertexFromJson (vertexToJson v) = some v := by
  obtain ⟨a, b⟩ := v
  rfl

theorem verticesFromJson_map (vs : List (Int × Int)) :
    verticesFromJson (vs.map vertexToJson) = some vs := by
  induction vs with
  | nil => rfl
  | cons v rest ih => simp [verticesFromJson, vertexFromJson_toJson, ih]

theorem polygon_loadFromJson_saveToJson (p : QGCFencePolygon) :
    QGCFencePolygon.loadFromJson p.saveToJson = some p.valueCopy := by
  have h1 : jget p.saveToJson "inclusion" = some (.bool p.inclusion) := rfl
  have h2 : jget p.saveToJson "polygon" = some (.arr (p.vertices.map vertexToJson)) := rfl
  simp [QGCFencePolygon.loadFromJson, h1, h2, verticesFromJson_map, QGCFencePolygon.valueCopy]

theorem circle_loadFromJson_saveToJson (c : QGCFenceCircle) :
    QGCFenceCircle.loadFromJson c.saveToJson = some c.valueCopy := by
  have h1 : jget c.saveToJson "inclusion" = some (.bool c.inclusion) := rfl
  have h2 : jget c.saveToJson "radius" = some (.num c.radius) := rfl
  have h3 : jget c.saveToJson "center" = some (vertexToJson c.center) := rfl
  simp [QGCFenceCircle.loadFromJson, h1, h2, h3, vertexFromJson_toJson, QGCFenceCircle.valueCopy]

/-! Lemmas about the polygon and circle loops of load. -/

theorem ObstacleController.loadPolygons_saved (ps : List QGCFencePolygon) :
    ∀ c : ObstacleController,
    c.loadPolygons (ps.map (fun p => JsonValue.obj p.saveToJson)) =
      ({ c with polygons := c.polygons ++ ps.map QGCFencePolygon.valueCopy,
                dirty := c.dirty || !ps.isEmpty }, none) := by
  induction ps with
  | nil =>
    intro c
    obtain ⟨pss, cs, br, fa, da, d, ir, fv⟩ := c
    simp [ObstacleController.loadPolygons]
  | cons p rest ih =>
    intro c
    obtain ⟨pss, cs, br, fa, da, d, ir, fv⟩ := c
    simp [ObstacleController.loadPolygons, polygon_loadFromJson_saveToJson,
          ObstacleController.appendPolygon_eq, ih]

theorem ObstacleController.loadCircles_saved (cis : List QGCFenceCircle) :
    ∀ c : ObstacleController,
    c.loadCircles (cis.map (fun ci => JsonValue.obj ci.saveToJson)) =
      ({ c with circles := c.circles ++ cis.map QGCFenceCircle.valueCopy,
                dirty := c.dirty || !cis.isEmpty }, none) := by
  induction cis with
  | nil =>
    intro c
    obtain ⟨pss, cs, br, fa, da, d, ir, fv⟩ := c
    simp [ObstacleController.loadCircles]
  | cons ci rest ih =>
    intro c
    obtain ⟨pss, cs, br, fa, da, d, ir, fv⟩ := c
    simp [ObstacleController.loadCircles, circle_loadFromJson_saveToJson,
          ObstacleController.appendCircle_eq, ih]

theorem ObstacleController.loadPolygons_breach (vs : List JsonValue) :
    ∀ c : ObstacleController,
    ((c.loadPolygons vs).1).breachReturnPoint = c.breachReturnPoint := by
  induction vs with
  | nil => intro c; rfl
  | cons v rest ih =>
    intro c
    cases v <;> simp [ObstacleController.loadPolygons]
    next o =>
      cases h : QGCFencePolygon.loadFromJson o <;>
        simp [h, ih, ObstacleController.appendPolygon_eq]

theorem ObstacleController.loadCircles_breach (vs : List JsonValue) :
    ∀ c : ObstacleController,
    ((c.loadCircles vs).1).breachReturnPoint = c.breachReturnPoint := by
  induction vs with
  | nil => intro c; rfl
  | cons v rest ih =>
    intro c
    cases v <;> simp [ObstacleController.loadCircles]
    next o =>
      cases h : QGCFenceCircle.loadFromJson o <;>
        simp [h, ih, ObstacleController.appendCircle_eq]

theorem validateKeys_err (l : List KeyValidateInfo) (o : JsonObject) :
    ∀ e : LoadError, validateKeys o l = some e → ∃ k, e = .keyValidation k := by
  induction l with
  | nil => intro e h; exact absurd h (by simp [validateKeys])
  | cons ki rest ih =>
    intro e h
    unfold validateKeys at h
    split at h
    · exact ⟨ki.key, (Option.some.injEq _ _ ▸ h.symm ▸ rfl)⟩
    · split at h
      · split at h
        · exact ih e h
        · exact ⟨ki.key, by injection h with h2; exact h2.symm⟩
      · exact ih e h

/-! Lemmas about the reconciliation path of the sync coordinator. -/

theorem ObstacleController.foldl_appendPolygon (ps : List QGCFencePolygon) :
    ∀ c : ObstacleController,
    ps.foldl (fun acc p => acc.appendPolygon p) c =
      { c with polygons := c.polygons ++ ps, dirty := c.dirty || !ps.isEmpty } := by
  induction ps with
  | nil =>
    intro c
    obtain ⟨pss, cs, br, fa, da, d, ir, fv⟩ := c
    simp
  | cons p rest ih =>
    intro c
    rw [List.foldl_cons, ih]
    obtain ⟨pss, cs, br, fa, da, d, ir, fv⟩ := c
    simp [ObstacleController.appendPolygon_eq]

theorem ObstacleController.foldl_appendCircle (cis : List QGCFenceCircle) :
    ∀ c : ObstacleController,
    cis.foldl (fun acc ci => acc.appendCircle ci) c =
      { c with circles := c.circles ++ cis, dirty := c.dirty || !cis.isEmpty } := by
  induction cis with
  | nil =>
    intro c
    obtain ⟨pss, cs, br, fa, da, d, ir, fv⟩ := c
    simp
  | cons ci rest ih =>
    intro c
    rw [List.foldl_cons, ih]
    obtain ⟨pss, cs, br, fa, da, d, ir, fv⟩ := c
    simp [ObstacleController.appendCircle_eq]

theorem SyncState.setReturnPointFromManager_eq (s : SyncState) :
    s.setReturnPointFromManager =
      { s with controller :=
          { s.controller with
              breachReturnPoint := s.manager.breachReturnPoint,
              breachReturnAltitudeFact :=
                if s.manager.breachReturnPoint.isValid then s.manager.breachReturnPoint.altitude
                else s.controller.breachReturnDefaultAltitude,
              dirty := true } } := by
  simp only [SyncState.setReturnPointFromManager, ObstacleController.setDirty_true]
  by_cases h : s.manager.breachReturnPoint.isValid
  · simp [h, ObstacleController.setAltitudeFactRawValue_of_dirty]
  · simp [h, ObstacleController.setAltitudeFactRawValue_of_dirty]

theorem SyncState.setFenceFromManager_of_dirty (s : SyncState)
    (h : s.controller.dirty = true) :
    s.setFenceFromManager =
      { s with controller :=
          { s.controller with
              polygons := s.manager.polygons.map (fun p => { p with dirty := false }),
              circles := s.manager.circles.map (fun ci => { ci with dirty := false }),
              dirty := false } } := by
  simp only [SyncState.setFenceFromManager, ObstacleController.clearPolygons_eq,
    ObstacleController.clearCircles_eq, ObstacleController.foldl_appendPolygon,
    ObstacleController.foldl_appendCircle]
  simp only [h]
  rw [ObstacleController.setDirty_false_of_dirty _ (by simp)]
  simp

theorem SyncState.managerLoadComplete_spec (s : SyncState) :
    s.managerLoadComplete =
      (if s.controller.flyView || s.controller.itemsRequested || s.controller.isEmpty then
        ({ s with controller :=
            { s.controller with
                polygons := s.manager.polygons.map (fun p => { p with dirty := false }),
                circles := s.manager.circles.map (fun ci => { ci with dirty := false }),
                breachReturnPoint := s.manager.breachReturnPoint,
                breachReturnAltitudeFact :=
                  if s.manager.breachReturnPoint.isValid then s.manager.breachReturnPoint.altitude
                  else s.controller.breachReturnDefaultAltitude,
                dirty := false,
                itemsRequested := false } }, true)
      else ({ s with controller := { s.controller with itemsRequested := false } }, false)) := by
  by_cases hg : (s.controller.flyView || s.controller.itemsRequested || s.controller.isEmpty) = true
  · simp only [SyncState.managerLoadComplete, hg, if_true]
    rw [SyncState.setReturnPointFromManager_eq]
    rw [SyncState.setFenceFromManager_of_dirty _ (by rfl)]
    rw [ObstacleController.setDirty_false_of_clean _ (by rfl)]
  · simp only [Bool.not_eq_true] at hg
    simp [SyncState.managerLoadComplete, hg]

theorem allPolyClean_map (l : List QGCFencePolygon) :
    (l.map (fun p => { p with dirty := false })).all (fun p => !p.dirty) = true := by
  induction l <;> simp_all

theorem allCircClean_map (l : List QGCFenceCircle) :
    (l.map (fun ci => { ci with dirty := false })).all (fun ci => !ci.dirty) = true := by
  induction l <;> simp_all

theorem ObstacleController.setAltFact_normalize (c : ObstacleController) (a : Int) :
    ((c.setAltitudeFactRawValue a).setDirty true).setDirty false =
      { c with breachReturnAltitudeFact := a, dirty := false,
               polygons := c.polygons.map (fun p => { p with dirty := false }),
               circles := c.circles.map (fun ci => { ci with dirty := false }) } := by
  unfold ObstacleController.setAltitudeFactRawValue
  split
  · next h =>
    rw [ObstacleController.setDirty_true,
        ObstacleController.setDirty_false_of_dirty _ (by rfl)]
    obtain ⟨ps, cs, br, fa, da, d, ir, fv⟩ := c
    simp only at h
    subst h
    rfl
  · rw [ObstacleController.setDirty_true, ObstacleController.setDirty_true,
        ObstacleController.setDirty_false_of_dirty _ (by rfl)]

theorem map_clear_valueCopyP (l : List QGCFencePolygon) :
    (l.map QGCFencePolygon.valueCopy).map (fun p => { p with dirty := false })
      = l.map QGCFencePolygon.valueCopy := by
  induction l <;> simp_all [QGCFencePolygon.valueCopy]

theorem map_clear_valueCopyC (l : List QGCFenceCircle) :
    (l.map QGCFenceCircle.valueCopy).map (fun ci => { ci with dirty := false })
      = l.map QGCFenceCircle.valueCopy := by
  induction l <;> simp_all [QGCFenceCircle.valueCopy]

/-- Loading the serialized form of shape lists and a valid breach point
(the exact object save emits) into any document succeeds and produces the
value copies of the shapes, the point and its altitude, with a clean
document. -/
theorem ObstacleController.load_saved_with_breach (c0 : ObstacleController)
    (ps : List QGCFencePolygon) (cis : List QGCFenceCircle)
    (la lo al : Int) :
    c0.load
      [(jsonBreachReturnKey, saveGeoCoordinate ⟨some la, some lo, some al⟩),
       (jsonCirclesKey, .arr (cis.map (fun ci => .obj ci.saveToJson))),
       (jsonPolygonsKey, .arr (ps.map (fun p => .obj p.saveToJson))),
       (jsonVersionKey, .num jsonCurrentVersion)] =
      ({ c0 with
          polygons := ps.map QGCFencePolygon.valueCopy,
          circles := cis.map QGCFenceCircle.valueCopy,
          breachReturnPoint := ⟨some la, some lo, some al⟩,
          breachReturnAltitudeFact := al,
          dirty := false }, none) := by
  unfold ObstacleController.load ObstacleController.loadBody
  rw [ObstacleController.removeAll_eq]
  simp only [jget, jcontains, jsonVersionKey, jsonPolygonsKey, jsonCirclesKey,
    jsonBreachReturnKey, jsonCurrentVersion, List.find?, saveGeoCoordinate,
    String.reduceBEq, String.reduceEq, cond_false, cond_true, Option.isSome_some,
    Bool.not_true, JsonValue.toInt, Option.getD_some, Bool.false_or, decide_eq_true_eq,
    JsonValue.toArray, validateKeys, keyInfoList, JsonValue.hasType, Option.getD]
  simp only [ObstacleController.loadPolygons_saved]
  simp only [ObstacleController.loadCircles_saved]
  simp only [loadGeoCoordinate]
  rw [ObstacleController.setAltFact_normalize]
  simp [GeoCoordinate.altitude, map_clear_valueCopyP, map_clear_valueCopyC]
  exact ⟨fun a _ => rfl, fun a _ => rfl⟩

/-- Loading the serialized form of shape lists without a breach key (the
exact object save emits for an invalid point) into any document succeeds,
produces the value copies of the shapes, resets the point to the invalid
coordinate and the altitude fact to the default, with a clean document. -/
theorem ObstacleController.load_saved_no_breach (c0 : ObstacleController)
    (ps : List QGCFencePolygon) (cis : List QGCFenceCircle) :
    c0.load
      [(jsonCirclesKey, .arr (cis.map (fun ci => .obj ci.saveToJson))),
       (jsonPolygonsKey, .arr (ps.map (fun p => .obj p.saveToJson))),
       (jsonVersionKey, .num jsonCurrentVersion)] =
      ({ c0 with
          polygons := ps.map QGCFencePolygon.valueCopy,
          circles := cis.map QGCFenceCircle.valueCopy,
          breachReturnPoint := GeoCoordinate.invalid,
          breachReturnAltitudeFact := c0.breachReturnDefaultAltitude,
          dirty := false }, none) := by
  unfold ObstacleController.load ObstacleController.loadBody
  rw [ObstacleController.removeAll_eq]
  simp only [jget, jcontains, jsonVersionKey, jsonPolygonsKey, jsonCirclesKey,
    jsonBreachReturnKey, jsonCurrentVersion, List.find?,
    String.reduceBEq, String.reduceEq, cond_false, cond_true, Option.isSome_some,
    Bool.not_true, JsonValue.toInt, Option.getD_some, Bool.false_or, decide_eq_true_eq,
    JsonValue.toArray, validateKeys, keyInfoList, JsonValue.hasType, Option.getD,
    Option.isSome_none]
  simp only [ObstacleController.loadPolygons_saved]
  simp only [ObstacleController.loadCircles_saved]
  rw [ObstacleController.setAltFact_normalize]
  simp [map_clear_valueCopyP, map_clear_valueCopyC]
  exact ⟨fun a _ => rfl, fun a _ => rfl⟩

theorem map_value_valueCopyP (l : List QGCFencePolygon) :
    (l.map QGCFencePolygon.valueCopy).map QGCFencePolygon.value
      = l.map QGCFencePolygon.value := by
  induction l <;> simp_all [QGCFencePolygon.valueCopy, QGCFencePolygon.value]

theorem map_value_valueCopyC (l : List QGCFenceCircle) :
    (l.map QGCFenceCircle.valueCopy).map QGCFenceCircle.value
      = l.map QGCFenceCircle.value := by
  induction l <;> simp_all [QGCFenceCircle.valueCopy, QGCFenceCircle.value]

/-! Concrete states used by the closed instance theorems. -/

/-- A concrete populated document. -/
def sampleDoc : ObstacleController :=
  { polygons := [⟨[(1, 2), (3, 4), (5, 6)], true, false, false⟩],
    circles := [⟨(7, 8), 100, false, false, false⟩],
    breachReturnPoint := ⟨some 10, some 20, some 30⟩,
    breachReturnAltitudeFact := 42,
    breachReturnDefaultAltitude := 50,
    dirty := true, itemsRequested := false, flyView := false }

/-- A concrete transport state holding one dirty polygon and a valid
breach point. -/
def sampleManager : ObstacleManager :=
  { inProgress := false, polygons := [⟨[(9, 9)], false, false, true⟩],
    circles := [], breachReturnPoint := ⟨some 1, some 2, some 3⟩,
    loadRequestCount := 0, sendRequestCount := 0, removeAllRequestCount := 0 }

/-- A concrete sync state whose transport reports an operation in
progress. -/
def busySync : SyncState :=
  { controller := ObstacleController.start false 50,
    manager := { sampleManager with inProgress := true },
    offline := false, initialPlanRequestComplete := true }

/-- A concrete idle online sync state in fly view. -/
def idleSync : SyncState :=
  { controller := ObstacleController.start true 50,
    manager := sampleManager,
    offline := false, initialPlanRequestComplete := true }

/-- The JSON object with version 3 and no further fields. -/
def jsonVersionThree : JsonObject := [(jsonVersionKey, JsonValue.num 3)]

/-- A version-2 JSON object with one well-formed polygon entry followed by
a malformed (non-object) circle entry. -/
def jsonBadCircle : JsonObject :=
  [(jsonVersionKey, .num 2),
   (jsonCirclesKey, .arr [.num 0]),
   (jsonPolygonsKey, .arr [.obj [("inclusion", .bool true), ("polygon", .arr [])]])]

/-! The claim theorems. -/

/-- C9: supported() returns true exactly when the fence capability bit is
advertised and the negotiated protocol major version is at least 2; in
particular, with the capability bit set but protocol version 1
(maxProtoVersion 100) it returns false. -/
theorem C9_supported_iff (v : VehicleCaps) :
    (supported v = true ↔
      (v.capabilityBits &&& capabilityMissionFence ≠ 0 ∧ 2 ≤ v.protocolMajorVersion)) ∧
    supported { capabilityBits := v.capabilityBits, maxProtoVersion := 100 } = false := by
  constructor
  · simp only [supported, Bool.and_eq_true, decide_eq_true_eq, VehicleCaps.protocolMajorVersion]
    constructor
    · rintro ⟨h1, h2⟩
      exact ⟨h1, by omega⟩
    · rintro ⟨h1, h2⟩
      exact ⟨h1, by omega⟩
  · simp [supported]

/-- C9 witness: a peer with the fence bit and protocol version 2
(maxProtoVersion 200) is supported; the same bit with version 1
(maxProtoVersion 100) is not. -/
theorem C9_witness :
    supported { capabilityBits := 16384, maxProtoVersion := 200 } = true ∧
    supported { capabilityBits := 16384, maxProtoVersion := 100 } = false :=
  ⟨(C9_supported_iff { capabilityBits := 16384, maxProtoVersion := 200 }).1.mpr
      ⟨by decide, by decide⟩,
   (C9_supported_iff { capabilityBits := 16384, maxProtoVersion := 100 }).2⟩

/-- C5: in every state where the transport reports an operation in
progress or the session is offline, sendToVehicle, loadFromVehicle and
removeAllFromVehicle are rejected by the guard: the state (document and
transport alike) stays identical, so no transport request is issued. -/
theorem C5_single_flight (s : SyncState)
    (h : s.syncInProgress = true ∨ s.offline = true) :
    s.sendToVehicle = s ∧ s.loadFromVehicle = s ∧ s.removeAllFromVehicle = s ∧
    (s.sendToVehicle).manager.sendRequestCount = s.manager.sendRequestCount ∧
    (s.loadFromVehicle).manager.loadRequestCount = s.manager.loadRequestCount ∧
    (s.removeAllFromVehicle).manager.removeAllRequestCount = s.manager.removeAllRequestCount := by
  have hsend : s.sendToVehicle = s := by
    unfold SyncState.sendToVehicle
    rcases h with h | h <;> simp [h]
  have hload : s.loadFromVehicle = s := by
    unfold SyncState.loadFromVehicle
    rcases h with h | h <;> simp [h]
  have hrem : s.removeAllFromVehicle = s := by
    unfold SyncState.removeAllFromVehicle
    rcases h with h | h <;> simp [h]
  exact ⟨hsend, hload, hrem, by rw [hsend], by rw [hload], by rw [hrem]⟩

/-- C5 witness: the guard theorem applied to the concrete busy state. -/
theorem C5_witness :
    busySync.sendToVehicle = busySync ∧ busySync.loadFromVehicle = busySync ∧
    busySync.removeAllFromVehicle = busySync ∧
    (busySync.sendToVehicle).manager.sendRequestCount = busySync.manager.sendRequestCount ∧
    (busySync.loadFromVehicle).manager.loadRequestCount = busySync.manager.loadRequestCount ∧
    (busySync.removeAllFromVehicle).manager.removeAllRequestCount
      = busySync.manager.removeAllRequestCount :=
  C5_single_flight busySync (Or.inl (by decide))

/-- C2: loading an object whose version field is absent or reads as 1
succeeds, reports no error, and leaves the document empty, regardless of
the other fields of the object. -/
theorem C2_legacy_load (c : ObstacleController) (json : JsonObject)
    (h : jcontains json jsonVersionKey = false ∨
         ((jget json jsonVersionKey).getD .null).toInt = 1) :
    (c.load json).2 = none ∧
    (c.load json).1.polygons = [] ∧
    (c.load json).1.circles = [] ∧
    (c.load json).1.breachReturnPoint.isValid = false := by
  have hbody : c.removeAll.loadBody json = (c.removeAll, none) := by
    unfold ObstacleController.loadBody
    rcases h with h | h <;> simp [h]
  unfold ObstacleController.load
  rw [hbody]
  refine ⟨rfl, ?_, ?_, ?_⟩ <;>
    simp [ObstacleController.removeAll_eq, GeoCoordinate.invalid, GeoCoordinate.isValid]

/-- C2 witness: a version-1 document with junk fields loaded into the
populated sample document. -/
theorem C2_witness :
    (sampleDoc.load [("version", .num 1), ("junk", .str "x")]).2 = none ∧
    (sampleDoc.load [("version", .num 1), ("junk", .str "x")]).1.polygons = [] ∧
    (sampleDoc.load [("version", .num 1), ("junk", .str "x")]).1.circles = [] ∧
    (sampleDoc.load [("version", .num 1), ("junk", .str "x")]).1.breachReturnPoint.isValid
      = false :=
  C2_legacy_load sampleDoc _ (Or.inr (by decide))

/-- C6: on any document satisfying the reachability invariant (a clean
document holds only clean shapes), setDirty false leaves every contained
polygon and circle clean — in particular right after a polygon was added;
setDirty true changes no per-shape state; and a subsequent vertex mutation
of a contained polygon sets the aggregate dirty flag true again. -/
theorem C6_dirty_propagation (c : ObstacleController) (p : QGCFencePolygon)
    (i : Nat) (vs : List (Int × Int))
    (hinv : c.dirty = false → c.allShapesClean = true)
    (hi : i < ((c.appendPolygon p).setDirty false).polygons.length) :
    (c.setDirty false).allShapesClean = true ∧
    ((c.appendPolygon p).setDirty false).allShapesClean = true ∧
    (c.setDirty true).polygons = c.polygons ∧
    (c.setDirty true).circles = c.circles ∧
    (((c.appendPolygon p).setDirty false).setPolygonVertices i vs).dirty = true := by
  have hclean : ∀ c2 : ObstacleController, c2.dirty = true →
      (c2.setDirty false).allShapesClean = true := by
    intro c2 h2
    rw [ObstacleController.setDirty_false_of_dirty _ h2]
    simp only [ObstacleController.allShapesClean]
    rw [allPolyClean_map, allCircClean_map]
    rfl
  have h1 : (c.setDirty false).allShapesClean = true := by
    cases hd : c.dirty
    · rw [ObstacleController.setDirty_false_of_clean _ hd]
      exact hinv hd
    · exact hclean c hd
  have happ : ((c.appendPolygon p).setDirty false).allShapesClean = true := by
    apply hclean
    rw [ObstacleController.appendPolygon_eq]
  have h5 : (((c.appendPolygon p).setDirty false).setPolygonVertices i vs).dirty = true := by
    set c1 := (c.appendPolygon p).setDirty false with hc1
    rcases hq : c1.polygons.get? i with _ | q
    · exact absurd (List.get?_eq_none.mp hq) (by omega)
    · have hqmem : q ∈ c1.polygons := List.get?_mem hq
      have hqclean : (!q.dirty) = true := by
        have h2 := happ
        simp only [ObstacleController.allShapesClean, Bool.and_eq_true,
                   List.all_eq_true] at h2
        simpa using h2.1 q hqmem
      unfold ObstacleController.setPolygonVertices
      rw [hq]
      simp only [Bool.not_eq_true'] at hqclean
      simp [hqclean, ObstacleController.setDirty_dirty]
  exact ⟨h1, happ, by rw [ObstacleController.setDirty_true],
         by rw [ObstacleController.setDirty_true], h5⟩

/-- C6 witness: the propagation theorem applied to the sample document and
a fresh dirty polygon appended at the end. -/
theorem C6_witness :
    (sampleDoc.setDirty false).allShapesClean = true ∧
    ((sampleDoc.appendPolygon ⟨[(0, 0)], false, false, true⟩).setDirty
        false).allShapesClean = true ∧
    (sampleDoc.setDirty true).polygons = sampleDoc.polygons ∧
    (sampleDoc.setDirty true).circles = sampleDoc.circles ∧
    (((sampleDoc.appendPolygon ⟨[(0, 0)], false, false, true⟩).setDirty
        false).setPolygonVertices 1 [(5, 5)]).dirty = true :=
  C6_dirty_propagation sampleDoc ⟨[(0, 0)], false, false, true⟩ 1 [(5, 5)]
    (by decide) (by decide)

/-- C10: save is not read-only — with a valid breach point it first
overwrites the stored point altitude with the current altitude fact value
and then serializes exactly that point under the breach key; it never
touches the polygon list, the circle list or the dirty flag; and with an
invalid point the document is left unchanged and the breach key is omitted
from the output. -/
theorem C10_save_frame (c : ObstacleController) :
    (c.save []).1.polygons = c.polygons ∧
    (c.save []).1.circles = c.circles ∧
    (c.save []).1.dirty = c.dirty ∧
    (c.breachReturnPoint.isValid = true →
      (c.save []).1.breachReturnPoint
        = c.breachReturnPoint.setAltitude c.breachReturnAltitudeFact ∧
      jget (c.save []).2 jsonBreachReturnKey
        = some (saveGeoCoordinate
            (c.breachReturnPoint.setAltitude c.breachReturnAltitudeFact))) ∧
    (c.breachReturnPoint.isValid = false →
      (c.save []).1 = c ∧ jcontains (c.save []).2 jsonBreachReturnKey = false) := by
  unfold ObstacleController.save
  by_cases h : c.breachReturnPoint.isValid = true
  · simp [h, jget_jinsert_self]
  · simp only [Bool.not_eq_true] at h
    have hnone : jcontains
        (jinsert (jinsert (jinsert [] jsonVersionKey (.num jsonCurrentVersion))
          jsonPolygonsKey (.arr (c.polygons.map (fun p => .obj p.saveToJson))))
          jsonCirclesKey (.arr (c.circles.map (fun ci => .obj ci.saveToJson))))
        jsonBreachReturnKey = false := by
      unfold jcontains
      rw [jget_jinsert_other _ _ _ _ (by decide), jget_jinsert_other _ _ _ _ (by decide),
          jget_jinsert_other _ _ _ _ (by decide)]
      rfl
    simp [h, hnone]

/-- C10 witness: the frame theorem applied to the sample document, whose
breach point is valid with altitude 30 while the altitude fact reads 42. -/
theorem C10_witness :
    (sampleDoc.save []).1.breachReturnPoint
      = sampleDoc.breachReturnPoint.setAltitude sampleDoc.breachReturnAltitudeFact ∧
    jget (sampleDoc.save []).2 jsonBreachReturnKey
      = some (saveGeoCoordinate
          (sampleDoc.breachReturnPoint.setAltitude sampleDoc.breachReturnAltitudeFact)) :=
  (C10_save_frame sampleDoc).2.2.2.1 (by decide)

/-- C7: the transport load-complete callback reconciles (replaces shapes
and breach point with the transport values, clears dirty, emits the
load-complete signal) exactly when in fly view, or items were requested,
or the document is empty; and itemsRequested is false afterwards in every
case, with the transport state untouched. -/
theorem C7_load_complete (s : SyncState) :
    (s.managerLoadComplete).1.controller.itemsRequested = false ∧
    (s.managerLoadComplete).2
      = (s.controller.flyView || s.controller.itemsRequested || s.controller.isEmpty) ∧
    ((s.managerLoadComplete).2 = true →
      (s.managerLoadComplete).1.controller.polygons
        = s.manager.polygons.map (fun p => { p with dirty := false }) ∧
      (s.managerLoadComplete).1.controller.circles
        = s.manager.circles.map (fun ci => { ci with dirty := false }) ∧
      (s.managerLoadComplete).1.controller.breachReturnPoint = s.manager.breachReturnPoint ∧
      (s.managerLoadComplete).1.controller.dirty = false) ∧
    ((s.managerLoadComplete).2 = false →
      (s.managerLoadComplete).1
        = { s with controller := { s.controller with itemsRequested := false } }) ∧
    (s.managerLoadComplete).1.manager = s.manager := by
  rw [SyncState.managerLoadComplete_spec]
  by_cases hg : (s.controller.flyView || s.controller.itemsRequested || s.controller.isEmpty)
      = true
  · simp [hg]
  · simp only [Bool.not_eq_true] at hg
    simp [hg]

/-- C7 witness: the callback theorem applied to the idle fly-view state
with the sample transport contents. -/
theorem C7_witness :
    (idleSync.managerLoadComplete).1.controller.polygons
      = idleSync.manager.polygons.map (fun p => { p with dirty := false }) ∧
    (idleSync.managerLoadComplete).1.controller.circles
      = idleSync.manager.circles.map (fun ci => { ci with dirty := false }) ∧
    (idleSync.managerLoadComplete).1.controller.breachReturnPoint
      = idleSync.manager.breachReturnPoint ∧
    (idleSync.managerLoadComplete).1.controller.dirty = false :=
  (C7_load_complete idleSync).2.2.1 (by decide)

/-- C8: showPlanFromManagerVehicle returns handled in exactly three cases:
offline (no state change at all), initial plan request incomplete, or sync
in progress (in the latter two only itemsRequested changes, to true);
otherwise it performs a synchronous reconciliation from the currently
reported transport values and returns not handled. -/
theorem C8_show_plan (s : SyncState) :
    (s.offline = true → s.showPlanFromManagerVehicle = (s, true)) ∧
    (s.offline = false → s.initialPlanRequestComplete = false →
      s.showPlanFromManagerVehicle
        = ({ s with controller := { s.controller with itemsRequested := true } }, true)) ∧
    (s.offline = false → s.initialPlanRequestComplete = true → s.syncInProgress = true →
      s.showPlanFromManagerVehicle
        = ({ s with controller := { s.controller with itemsRequested := true } }, true)) ∧
    (s.offline = false → s.initialPlanRequestComplete = true → s.syncInProgress = false →
      (s.showPlanFromManagerVehicle).2 = false ∧
      (s.showPlanFromManagerVehicle).1.controller.polygons
        = s.manager.polygons.map (fun p => { p with dirty := false }) ∧
      (s.showPlanFromManagerVehicle).1.controller.circles
        = s.manager.circles.map (fun ci => { ci with dirty := false }) ∧
      (s.showPlanFromManagerVehicle).1.controller.breachReturnPoint
        = s.manager.breachReturnPoint ∧
      (s.showPlanFromManagerVehicle).1.controller.dirty = false ∧
      (s.showPlanFromManagerVehicle).1.controller.itemsRequested = false) := by
  refine ⟨?_, ?_, ?_, ?_⟩
  · intro ho
    simp [SyncState.showPlanFromManagerVehicle, ho]
  · intro ho hi
    simp [SyncState.showPlanFromManagerVehicle, ho, hi]
  · intro ho hi hp
    simp [SyncState.showPlanFromManagerVehicle, SyncState.syncInProgress, ho, hi,
          SyncState.syncInProgress.eq_def] at hp ⊢
    simp [hp]
  · intro ho hi hp
    have hrw : s.showPlanFromManagerVehicle =
        ((({ s with controller :=
            { s.controller with itemsRequested := true } } : SyncState).managerLoadComplete).1,
          false) := by
      unfold SyncState.showPlanFromManagerVehicle
      simp only [ho, hi, SyncState.syncInProgress] at *
      simp [hp, SyncState.syncInProgress]
    rw [hrw]
    rw [SyncState.managerLoadComplete_spec]
    simp

/-- C8 witness: the reconcile branch of the theorem at the idle online
state. -/
theorem C8_witness :
    (idleSync.showPlanFromManagerVehicle).2 = false ∧
    (idleSync.showPlanFromManagerVehicle).1.controller.polygons
      = idleSync.manager.polygons.map (fun p => { p with dirty := false }) ∧
    (idleSync.showPlanFromManagerVehicle).1.controller.circles
      = idleSync.manager.circles.map (fun ci => { ci with dirty := false }) ∧
    (idleSync.showPlanFromManagerVehicle).1.controller.breachReturnPoint
      = idleSync.manager.breachReturnPoint ∧
    (idleSync.showPlanFromManagerVehicle).1.controller.dirty = false ∧
    (idleSync.showPlanFromManagerVehicle).1.controller.itemsRequested = false :=
  (C8_show_plan idleSync).2.2.2 (by decide) (by decide) (by decide)

/-- C3 counterexample: loading an object with version 3 but without the
required polygon and circle arrays fails with a key-validation parse
error, not with the unsupported-version error, refuting the claim that
every version-not-in-1-2 object fails with UnsupportedVersion. -/
theorem C3_counterexample :
    ((ObstacleController.start false 50).load jsonVersionThree).2
        = some (LoadError.keyValidation jsonCirclesKey) ∧
    ((ObstacleController.start false 50).load jsonVersionThree).2
        ≠ some LoadError.unsupportedVersion := by
  constructor <;> decide

/-- C3 amended: for every object whose version field is present with a
value reading as neither 1 nor 2, load fails — with UnsupportedVersion
exactly when the key-validation table passes, and otherwise with exactly
the key-validation parse error the table reports — and the polygon and
circle counts are zero after the call. -/
theorem C3_version_rejection (c : ObstacleController) (json : JsonObject) (v : JsonValue)
    (hv : jget json jsonVersionKey = some v)
    (h1 : v.toInt ≠ 1) (h2 : v.toInt ≠ 2) :
    ((c.load json).2).isSome = true ∧
    (c.load json).1.polygons = [] ∧
    (c.load json).1.circles = [] ∧
    ((c.load json).2 = some LoadError.unsupportedVersion
      ↔ validateKeys json keyInfoList = none) ∧
    (∀ e, validateKeys json keyInfoList = some e →
      (c.load json).2 = some e ∧ ∃ k, e = LoadError.keyValidation k) := by
  have hc : jcontains json jsonVersionKey = true := by simp [jcontains, hv]
  have hg : (jget json jsonVersionKey).getD .null = v := by rw [hv]; rfl
  unfold ObstacleController.load ObstacleController.loadBody
  rw [hc, hg]
  simp only [Bool.not_true, Bool.false_or, decide_eq_true_eq]
  rw [if_neg h1]
  cases hvk : validateKeys json keyInfoList with
  | some e =>
    obtain ⟨k, hk⟩ := validateKeys_err _ _ e hvk
    subst hk
    refine ⟨rfl, ?_, ?_, ?_, ?_⟩
    · simp [ObstacleController.removeAll_eq]
    · simp [ObstacleController.removeAll_eq]
    · simp
    · intro e2 he2
      injection he2 with h3
      exact ⟨by rw [h3], k, h3.symm⟩
  | none =>
    rw [if_pos (show v.toInt ≠ jsonCurrentVersion from h2)]
    refine ⟨rfl, ?_, ?_, by simp, ?_⟩
    · simp [ObstacleController.removeAll_eq]
    · simp [ObstacleController.removeAll_eq]
    · intro e2 he2
      cases he2

/-- C3 amended witness: the version-3 object with well-formed empty shape
arrays does fail with UnsupportedVersion and leaves zero shapes. -/
theorem C3_witness :
    (((ObstacleController.start false 50).load
        [(jsonVersionKey, .num 3), (jsonCirclesKey, .arr []),
         (jsonPolygonsKey, .arr [])]).2).isSome = true ∧
    ((ObstacleController.start false 50).load
        [(jsonVersionKey, .num 3), (jsonCirclesKey, .arr []),
         (jsonPolygonsKey, .arr [])]).1.polygons = [] ∧
    ((ObstacleController.start false 50).load
        [(jsonVersionKey, .num 3), (jsonCirclesKey, .arr []),
         (jsonPolygonsKey, .arr [])]).1.circles = [] ∧
    ((ObstacleController.start false 50).load
        [(jsonVersionKey, .num 3), (jsonCirclesKey, .arr []),
         (jsonPolygonsKey, .arr [])]).2 = some LoadError.unsupportedVersion :=
  ⟨(C3_version_rejection (ObstacleController.start false 50) _ (JsonValue.num 3)
      (by rfl) (by decide) (by decide)).1,
   (C3_version_rejection (ObstacleController.start false 50) _ (JsonValue.num 3)
      (by rfl) (by decide) (by decide)).2.1,
   (C3_version_rejection (ObstacleController.start false 50) _ (JsonValue.num 3)
      (by rfl) (by decide) (by decide)).2.2.1,
   (C3_version_rejection (ObstacleController.start false 50) _ (JsonValue.num 3)
      (by rfl) (by decide) (by decide)).2.2.2.1.mpr (by decide)⟩

/-- C4 counterexample: a failing load (malformed circle entry) can leave a
nonzero polygon count — the polygon parsed before the failing circle entry
remains — refuting the claim that every failing load leaves zero polygons
and circles. -/
theorem C4_counterexample :
    (((ObstacleController.start false 50).load jsonBadCircle).2).isSome = true ∧
    ((ObstacleController.start false 50).load jsonBadCircle).1.polygons.length = 1 := by
  constructor <;> decide

theorem ObstacleController.loadBody_err_breach (c : ObstacleController) (json : JsonObject)
    (h : c.breachReturnPoint = GeoCoordinate.invalid) :
    ((c.loadBody json).2).isSome = true →
    ((c.loadBody json).1).breachReturnPoint.isValid = false := by
  have hinv : ∀ c2 : ObstacleController,
      c2.breachReturnPoint = GeoCoordinate.invalid →
      c2.breachReturnPoint.isValid = false := by
    intro c2 h2
    rw [h2]
    rfl
  unfold ObstacleController.loadBody
  split
  · intro herr
    simp at herr
  · split
    · intro _
      exact hinv c h
    · split
      · intro _
        exact hinv c h
      · split
        · next c1 e heq =>
          intro _
          have hb := ObstacleController.loadPolygons_breach
            (((jget json jsonPolygonsKey).getD .null).toArray) c
          rw [heq] at hb
          simp only at hb
          simp only [hb, h]
          rfl
        · next c1 heq =>
          have hb1 := ObstacleController.loadPolygons_breach
            (((jget json jsonPolygonsKey).getD .null).toArray) c
          rw [heq] at hb1
          simp only at hb1
          split
          · next c2 e heq2 =>
            intro _
            have hb2 := ObstacleController.loadCircles_breach
              (((jget json jsonCirclesKey).getD .null).toArray) c1
            rw [heq2] at hb2
            simp only at hb2
            simp only [hb2, hb1, h]
            rfl
          · next c2 heq2 =>
            have hb2 := ObstacleController.loadCircles_breach
              (((jget json jsonCirclesKey).getD .null).toArray) c1
            rw [heq2] at hb2
            simp only at hb2
            split
            · split
              · intro _
                simp only [hb2, hb1, h]
                rfl
              · intro herr
                simp at herr
            · intro herr
              simp at herr

/-- C4 amended: on every input on which load fails, the error is returned
to the caller and the prior document content has already been cleared: the
result is identical to loading into the cleared document, and the breach
point is invalid after every failure; shape entries parsed from the input
before the failing entry remain appended. -/
theorem C4_destructive_fail (c : ObstacleController) (json : JsonObject) :
    c.load json = (c.removeAll).load json ∧
    (((c.load json).2).isSome = true →
      ((c.load json).1).breachReturnPoint.isValid = false) := by
  constructor
  · unfold ObstacleController.load
    rw [ObstacleController.removeAll_idem]
  · unfold ObstacleController.load
    apply ObstacleController.loadBody_err_breach
    simp [ObstacleController.removeAll_eq]

/-- C4 amended witness: the malformed-circle document loaded into the
populated sample document. -/
theorem C4_witness :
    sampleDoc.load jsonBadCircle = (sampleDoc.removeAll).load jsonBadCircle ∧
    ((sampleDoc.load jsonBadCircle).1).breachReturnPoint.isValid = false :=
  ⟨(C4_destructive_fail sampleDoc jsonBadCircle).1,
   (C4_destructive_fail sampleDoc jsonBadCircle).2 (by decide)⟩

/-- C1: save into a fresh JSON object followed by load of that object into
any document succeeds, reproduces the same shape values (count, vertices,
radius, inclusion), the same breach-point validity — with the same point
value whenever the point is valid — and leaves the loaded document with a
clear dirty flag. -/
theorem C1_roundtrip (c c0 : ObstacleController) :
    ((c0.load (c.save []).2).2 = none) ∧
    ((c0.load (c.save []).2).1.polygons.map QGCFencePolygon.value
      = (c.save []).1.polygons.map QGCFencePolygon.value) ∧
    ((c0.load (c.save []).2).1.circles.map QGCFenceCircle.value
      = (c.save []).1.circles.map QGCFenceCircle.value) ∧
    ((c0.load (c.save []).2).1.breachReturnPoint.isValid
      = (c.save []).1.breachReturnPoint.isValid) ∧
    ((c.save []).1.breachReturnPoint.isValid = true →
      (c0.load (c.save []).2).1.breachReturnPoint = (c.save []).1.breachReturnPoint) ∧
    ((c0.load (c.save []).2).1.dirty = false) := by
  by_cases hv : c.breachReturnPoint.isValid = true
  · rcases hbp : c.breachReturnPoint with ⟨olat, olon, oalt⟩
    rw [hbp] at hv
    simp only [GeoCoordinate.isValid, Bool.and_eq_true, Option.isSome_iff_exists] at hv
    obtain ⟨⟨la, hla⟩, ⟨lo, hlo⟩⟩ := hv
    subst hla
    subst hlo
    have hsave : c.save [] =
        ({ c with breachReturnPoint := ⟨some la, some lo, some c.breachReturnAltitudeFact⟩ },
         [(jsonBreachReturnKey,
            saveGeoCoordinate ⟨some la, some lo, some c.breachReturnAltitudeFact⟩),
          (jsonCirclesKey, .arr (c.circles.map (fun ci => .obj ci.saveToJson))),
          (jsonPolygonsKey, .arr (c.polygons.map (fun p => .obj p.saveToJson))),
          (jsonVersionKey, .num jsonCurrentVersion)]) := by
      simp only [ObstacleController.save]
      rw [if_pos (by rw [hbp]; rfl)]
      simp [hbp, GeoCoordinate.setAltitude, jinsert]
    rw [hsave]
    rw [ObstacleController.load_saved_with_breach]
    refine ⟨rfl, ?_, ?_, rfl, fun _ => rfl, rfl⟩
    · simp [map_value_valueCopyP]
      exact fun a _ => rfl
    · simp [map_value_valueCopyC]
      exact fun a _ => rfl
  · simp only [Bool.not_eq_true] at hv
    have hsave : c.save [] =
        (c,
         [(jsonCirclesKey, .arr (c.circles.map (fun ci => .obj ci.saveToJson))),
          (jsonPolygonsKey, .arr (c.polygons.map (fun p => .obj p.saveToJson))),
          (jsonVersionKey, .num jsonCurrentVersion)]) := by
      simp only [ObstacleController.save]
      rw [if_neg (by rw [hv]; exact Bool.false_ne_true)]
      simp [jinsert]
    rw [hsave]
    rw [ObstacleController.load_saved_no_breach]
    refine ⟨rfl, ?_, ?_, ?_, ?_, rfl⟩
    · simp [map_value_valueCopyP]
      exact fun a _ => rfl
    · simp [map_value_valueCopyC]
      exact fun a _ => rfl
    · rw [hv]
      rfl
    · intro hcontra
      rw [hv] at hcontra
      cases hcontra

/-- C1 witness: the round trip applied to the populated sample document
(valid breach point, altitude fact 42) loaded back into a fresh fly-view
document. -/
theorem C1_witness :
    (((ObstacleController.start true 7).load (sampleDoc.save []).2).2 = none) ∧
    (((ObstacleController.start true 7).load
        (sampleDoc.save []).2).1.polygons.map QGCFencePolygon.value
      = (sampleDoc.save []).1.polygons.map QGCFencePolygon.value) ∧
    (((ObstacleController.start true 7).load
        (sampleDoc.save []).2).1.circles.map QGCFenceCircle.value
      = (sampleDoc.save []).1.circles.map QGCFenceCircle.value) ∧
    (((ObstacleController.start true 7).load
        (sampleDoc.save []).2).1.breachReturnPoint.isValid
      = (sampleDoc.save []).1.breachReturnPoint.isValid) ∧
    (((ObstacleController.start true 7).load (sampleDoc.save []).2).1.breachReturnPoint
        = (sampleDoc.save []).1.breachReturnPoint) ∧
    (((ObstacleController.start true 7).load (sampleDoc.save []).2).1.dirty = false) :=
  ⟨(C1_roundtrip sampleDoc (ObstacleController.start true 7)).1,
   (C1_roundtrip sampleDoc (ObstacleController.start true 7)).2.1,
   (C1_roundtrip sampleDoc (ObstacleController.start true 7)).2.2.1,
   (C1_roundtrip sampleDoc (ObstacleController.start true 7)).2.2.2.1,
   (C1_roundtrip sampleDoc (ObstacleController.start true 7)).2.2.2.2.1 (by decide),
   (C1_roundtrip sampleDoc (ObstacleController.start true 7)).2.2.2.2.2⟩

end Obstacle
